import Mathlib

/-!
Verification of the spaced-repetition scheduler (src/app.py) against its
natural-language specification.

The Python program keeps a session ledger (the streamlit session state key
event_history) holding three lists of session records: created_events,
completed_events and missed_events.  Each created session record carries an
id, a title, a date and an ordered list of sub-event records; each sub-event
record carries an id, a name, a completed flag and an optionally captured
originalColorId.  The definitions below are a shallow embedding of the
ledger-manipulating functions of app.py: remote calls made through the
Google-calendar service object are replaced by explicit function arguments
describing the outcome of each call, and in-place dict mutation becomes
pure record update.
-/

namespace SpacedRepetition

/-- A sub-event record, as stored in event_history sub_events lists:
id, name, completed, and the lazily captured originalColorId (absent until
the first completion toggle reaches the remote event). -/
structure SubEvent where
  id : Nat
  name : String
  completed : Bool
  originalColorId : Option String
deriving DecidableEq, Repr

/-- A session record of the created_events list: id, title, date and the
ordered sub-event list.  The date is kept as its ISO string. -/
structure Session where
  id : Nat
  title : String
  date : String
  sub_events : List SubEvent
deriving DecidableEq, Repr

/-- The ledger (event_history): created, completed and missed session
lists, exactly the three keys initialised by initialize_event_history. -/
structure History where
  created_events : List Session
  completed_events : List Session
  missed_events : List Session
deriving DecidableEq, Repr

/-- Outcome of the remote events().get call made by event_exists for one
id.  In the Python code a missing event and a transport-level failure both
surface as googleapiclient.errors.HttpError; they are distinguished here so
that theorems can speak about transport errors specifically. -/
inductive RemoteGet where
  | ok : RemoteGet
  | notFound : RemoteGet
  | transportError : RemoteGet
deriving DecidableEq, Repr

/-- app.py event_exists (lines 85-90): returns True when the remote get
succeeds and False whenever it raises HttpError -- the except clause does
not distinguish a 404 from a transport-level failure, so both notFound and
transportError yield False. -/
def event_exists (check : Nat → RemoteGet) (event_id : Nat) : Bool :=
  match check event_id with
  | RemoteGet.ok => true
  | RemoteGet.notFound => false
  | RemoteGet.transportError => false

/-- The per-list loop of verify_events: iterate over the sessions of one
list and append to the result exactly those whose own id passes
event_exists. -/
def keep_existing (check : Nat → RemoteGet) : List Session → List Session
  | [] => []
  | e :: rest =>
    if event_exists check e.id then e :: keep_existing check rest
    else keep_existing check rest

/-- app.py verify_events (lines 68-82): rebuilds the three lists of the
ledger, keeping each session record whole when the check of the session id
succeeds.  The pop on the event_checkboxes UI map in the else branch does
not touch the ledger and is not modelled. -/
def verify_events (check : Nat → RemoteGet) (history : History) : History :=
  { created_events := keep_existing check history.created_events
  , completed_events := keep_existing check history.completed_events
  , missed_events := keep_existing check history.missed_events }

/-- The reconciliation described by the specification text, for comparison
with verify_events: every sub-event is checked individually, only
sub-events whose check succeeds survive, and a session left with no
surviving sub-event is dropped. -/
def reconcile_list_spec (check : Nat → RemoteGet) (l : List Session) : List Session :=
  (l.map fun e =>
    { e with sub_events := e.sub_events.filter fun s => event_exists check s.id }).filter
    fun e => !e.sub_events.isEmpty

/-- Whole-ledger form of reconcile_list_spec, following the specification
words for the Reconciler. -/
def reconcile_spec (check : Nat → RemoteGet) (history : History) : History :=
  { created_events := reconcile_list_spec check history.created_events
  , completed_events := reconcile_list_spec check history.completed_events
  , missed_events := reconcile_list_spec check history.missed_events }

/-- app.py reset_progress (lines 92-98): set completed to False on every
sub-event of every created session; the in-place loop becomes a map. -/
def reset_progress (history : History) : History :=
  { history with
      created_events := history.created_events.map fun e =>
        { e with sub_events := e.sub_events.map fun s => { s with completed := false } } }

/-- The default colorId used when the fetched remote event carries none
(calendar_event.get with default 1). -/
def default_color : String := "1"

/-- The fixed done color written on completion (Graphite, colorId 8). -/
def graphite : String := "8"

/-- The summary marker prepended on completion and stripped again on
un-completion. -/
def completed_marker : String := "Completed: "

/-- The character sequence of completed_marker, used by the embedding of
the Python str.replace call. -/
def completed_chars : List Char := ['C', 'o', 'm', 'p', 'l', 'e', 't', 'e', 'd', ':', ' ']

/-- A remote calendar event as toggle_completion sees it: its summary and
its optional colorId. -/
structure RemoteEvent where
  summary : String
  colorId : Option String
deriving DecidableEq, Repr

/-- Fuelled embedding of the Python call summary.replace of the marker by
the empty string: scan left to right and delete every non-overlapping
occurrence of completed_chars.  The fuel only needs to cover the length of
the list, since every step consumes at least one character. -/
def strip_completed : Nat → List Char → List Char
  | 0, l => l
  | _ + 1, [] => []
  | fuel + 1, c :: rest =>
    if completed_chars.isPrefixOf (c :: rest) then
      strip_completed fuel ((c :: rest).drop completed_chars.length)
    else c :: strip_completed fuel rest

/-- String-level wrapper of strip_completed, the embedding of the Python
expression replacing the completed marker by the empty string. -/
def py_replace_completed (s : String) : String :=
  String.mk (strip_completed s.data.length s.data)

/-- The body of the innermost match of app.py toggle_completion (lines
106-118) for one sub-event: flip completed; when the remote get succeeded
(remote = some cal), capture originalColorId if absent, then either prefix
the summary with the marker and recolour to graphite, or strip the marker
and restore the captured colour.  remote = none is the HttpError path: the
flip still lands in the ledger but the remote event is untouched. -/
def toggle_sub (sub : SubEvent) (remote : Option RemoteEvent) : SubEvent × Option RemoteEvent :=
  let sub1 : SubEvent := { sub with completed := !sub.completed }
  match remote with
  | none => (sub1, none)
  | some cal =>
    let sub2 : SubEvent :=
      if sub1.originalColorId.isNone then
        { sub1 with originalColorId := some (cal.colorId.getD default_color) }
      else sub1
    if sub2.completed then
      (sub2, some { summary := completed_marker ++ cal.summary, colorId := some graphite })
    else
      (sub2, some { summary := py_replace_completed cal.summary, colorId := sub2.originalColorId })

/-- The inner loop of toggle_completion over one sub-event list: toggle the
first sub-event carrying the requested id, none when no id matches. -/
def toggle_subs (subs : List SubEvent) (sub_event_id : Nat) (remote : Option RemoteEvent) :
    Option (List SubEvent) :=
  match subs with
  | [] => none
  | s :: rest =>
    if s.id = sub_event_id then some ((toggle_sub s remote).1 :: rest)
    else (toggle_subs rest sub_event_id remote).map fun l => s :: l

/-- The outer loop of toggle_completion over created_events: for each
session whose id matches, try the sub-event list; the Python loop keeps
scanning later sessions when the matching session has no matching
sub-event, and returns right after the first successful toggle. -/
def toggle_sessions (events : List Session) (event_id sub_event_id : Nat)
    (remote : Nat → Option RemoteEvent) : List Session :=
  match events with
  | [] => []
  | e :: rest =>
    if e.id = event_id then
      match toggle_subs e.sub_events sub_event_id (remote sub_event_id) with
      | some subs => { e with sub_events := subs } :: rest
      | none => e :: toggle_sessions rest event_id sub_event_id remote
    else e :: toggle_sessions rest event_id sub_event_id remote

/-- app.py toggle_completion (lines 100-123) at ledger level: the remote
argument gives, per id, the outcome of the events().get call (none for an
HttpError).  The function never fails: when no session and sub-event pair
matches, the ledger comes back unchanged. -/
def toggle_completion (history : History) (event_id sub_event_id : Nat)
    (remote : Nat → Option RemoteEvent) : History :=
  { history with
      created_events := toggle_sessions history.created_events event_id sub_event_id remote }

/-- app.py line 275: the fixed spaced-repetition offset table. -/
def intervals : List Nat := [1, 7, 16, 30, 90, 180, 365]

/-- app.py lines 276-284: the action label attached to each offset. -/
def interval_actions (i : Nat) : String :=
  match i with
  | 1 => "Review notes"
  | 7 => "Revise thoroughly"
  | 16 => "Solve problems"
  | 30 => "Revise again"
  | 90 => "Test yourself"
  | 180 => "Deep review"
  | 365 => "Final review"
  | _ => ""

/-- Minutes in a day; timestamps below are minutes since the epoch
1970-01-01 00:00 in the Asia/Colombo wall clock. -/
def minutes_per_day : Int := 1440

/-- 2025-08-31 00:00 (the datetime compared against on app.py line 313),
in minutes since the epoch. -/
def cutoff_check : Int := 29276640

/-- 2025-08-31 23:59 (the clamp target assigned on app.py line 314), in
minutes since the epoch. -/
def cutoff_clamp : Int := 29278079

/-- One scheduled occurrence of the series: its day offset and its start
and stop timestamps in minutes. -/
structure Occurrence where
  offsetDays : Nat
  start : Int
  stop : Int
deriving DecidableEq, Repr

/-- The date computation of one iteration of the creation loop (app.py
lines 309-315): start is the anchor plus the day offset, stop is start
plus the duration in minutes, and only the 365-day entry is clamped when
its computed start lies beyond 2025-08-31 00:00. -/
def occurrence_for (anchor : Int) (duration : Nat) (i : Nat) : Occurrence :=
  if i = 365 ∧ anchor + (i : Int) * minutes_per_day > cutoff_check then
    { offsetDays := i, start := cutoff_clamp, stop := cutoff_clamp + (duration : Int) }
  else
    { offsetDays := i, start := anchor + (i : Int) * minutes_per_day,
      stop := anchor + (i : Int) * minutes_per_day + (duration : Int) }

/-- The full date series computed by the creation loop, one occurrence per
entry of the offset table, in table order. -/
def generate_series (anchor : Int) (duration : Nat) : List Occurrence :=
  intervals.map (occurrence_for anchor duration)

/-- Separator of the event title built on app.py line 308. -/
def title_sep : String := ": "

/-- The title given to the sub-event of one offset: subject, separator,
action label. -/
def name_for (subject : String) (i : Nat) : String :=
  subject ++ title_sep ++ interval_actions i

/-- Result of the creation loop: the sub-event records appended so far,
the success flag, and the id returned by the most recent successful
insert call (the Python variable created_event after the loop). -/
structure CreateResult where
  sub_events : List SubEvent
  success : Bool
  last_created : Option Nat
deriving DecidableEq, Repr

/-- The creation loop of app.py lines 306-337 with the remote insert call
abstracted: insert i is some id when the insert for offset i succeeds with
that remote id and none when it raises HttpError, in which case the loop
sets success to False and breaks, keeping the sub-events appended so
far. -/
def create_loop (insert : Nat → Option Nat) (subject : String) :
    List Nat → List SubEvent → Option Nat → CreateResult
  | [], acc, last => { sub_events := acc, success := true, last_created := last }
  | i :: rest, acc, last =>
    match insert i with
    | some new_id =>
        create_loop insert subject rest
          (acc ++ [{ id := new_id, name := name_for subject i, completed := false,
                     originalColorId := none }])
          (some new_id)
    | none => { sub_events := acc, success := false, last_created := last }

/-- The creation loop run over the fixed offset table from an empty
accumulator, as the Create Events handler does. -/
def run_create (insert : Nat → Option Nat) (subject : String) : CreateResult :=
  create_loop insert subject intervals [] none

/-- app.py lines 339-347: only when every insert succeeded is a session
record appended to created_events, carrying the id of the event created by
the last insert (the loop variable created_event), the description as
title, the anchor date string, and the accumulated sub-events.  On a
partial failure the ledger is left untouched.  The none branch of the
match is unreachable for the fixed non-empty table (success forces at
least one insert). -/
def create_events (insert : Nat → Option Nat) (subject description date_s : String)
    (history : History) : History :=
  if (run_create insert subject).success then
    match (run_create insert subject).last_created with
    | some anchor_id =>
        { history with
            created_events := history.created_events ++
              [{ id := anchor_id, title := description, date := date_s,
                 sub_events := (run_create insert subject).sub_events }] }
    | none => history
  else history

/-! Concrete data used by counterexamples and witnesses. -/

/-- A remote map that answers no get call, for toggles whose remote get
fails or is irrelevant. -/
def remote_none : Nat → Option RemoteEvent := fun _ => none

/-- Existence check for the C1 counterexample: id 2 is missing remotely,
all other ids exist. -/
def check_c1 : Nat → RemoteGet := fun i =>
  if i = 2 then RemoteGet.notFound else RemoteGet.ok

/-- A sub-event with the given id, not yet completed, colour never
captured. -/
def plain_sub (i : Nat) : SubEvent :=
  { id := i, name := "s", completed := false, originalColorId := none }

/-- Ledger for the C1 counterexample: one created session (id 1) holding
sub-events 1, 2, 3. -/
def hist_c1 : History :=
  { created_events :=
      [{ id := 1, title := "t", date := "d",
         sub_events := [plain_sub 1, plain_sub 2, plain_sub 3] }]
  , completed_events := []
  , missed_events := [] }

/-- Existence check for the C2 theorem: the get for id 5 fails with a
transport-level HttpError; every other id exists. -/
def check_c2 : Nat → RemoteGet := fun i =>
  if i = 5 then RemoteGet.transportError else RemoteGet.ok

/-- Ledger for the C2 theorem: one created session with id 5. -/
def hist_c2 : History :=
  { created_events := [{ id := 5, title := "t", date := "d", sub_events := [plain_sub 5] }]
  , completed_events := []
  , missed_events := [] }

/-- The empty ledger, as initialised on first run. -/
def hist_empty : History :=
  { created_events := [], completed_events := [], missed_events := [] }

/-- Ledger with one session (id 1) holding the single sub-event 10, used
by the C5 counterexample and witness. -/
def hist_c5 : History :=
  { created_events := [{ id := 1, title := "t", date := "d", sub_events := [plain_sub 10] }]
  , completed_events := []
  , missed_events := [] }

/-- Insert outcomes for the C4 counterexample: the insert for offset 1
succeeds with id 11, every later insert raises HttpError. -/
def insert_c4 : Nat → Option Nat := fun i => if i = 1 then some 11 else none

/-- Insert outcomes for the C7 counterexample: the insert for offset i
succeeds with id 100 + i. -/
def insert_c7 : Nat → Option Nat := fun i => some (100 + i)

/-- Subject string used by creation counterexamples. -/
def subj : String := "Physics"

/-- Remote calendar event used by the C6 witness. -/
def cal_c6 : RemoteEvent := { summary := "Physics: Review notes", colorId := some "7" }

/-! Helper lemmas. -/

/-- keep_existing is the filter by the existence check of the session
id. -/
theorem keep_existing_eq_filter (check : Nat → RemoteGet) (l : List Session) :
    keep_existing check l = l.filter fun e => event_exists check e.id := by
  induction l with
  | nil => rfl
  | cons e rest ih =>
    by_cases h : event_exists check e.id
    · simp [keep_existing, h, ih, List.filter_cons]
    · simp [keep_existing, h, ih, List.filter_cons]

/-- Membership characterisation of keep_existing. -/
theorem mem_keep_existing (check : Nat → RemoteGet) (l : List Session) (e : Session) :
    e ∈ keep_existing check l ↔ e ∈ l ∧ event_exists check e.id = true := by
  rw [keep_existing_eq_filter]
  simp [List.mem_filter]

/-- A list is a prefix of itself followed by anything, in the Boolean
isPrefixOf sense. -/
theorem isPrefixOf_append_self (p s : List Char) : p.isPrefixOf (p ++ s) = true := by
  induction p with
  | nil => simp [List.isPrefixOf]
  | cons a p ih => simp [List.isPrefixOf, ih]

/-- Unfolding equation of strip_completed on a cons with positive fuel. -/
theorem strip_completed_cons (fuel : Nat) (c : Char) (rest : List Char) :
    strip_completed (fuel + 1) (c :: rest) =
      if completed_chars.isPrefixOf (c :: rest) then
        strip_completed fuel ((c :: rest).drop completed_chars.length)
      else c :: strip_completed fuel rest := rfl

/-- strip_completed ignores its fuel on the empty list. -/
theorem strip_completed_nil (fuel : Nat) : strip_completed fuel [] = [] := by
  cases fuel <;> rfl

/-- One deletion step: with positive fuel, a list starting with the
completed marker loses that occurrence and the scan continues. -/
theorem strip_completed_marker_cons (fuel : Nat) (s : List Char) :
    strip_completed (fuel + 1) (completed_chars ++ s) = strip_completed fuel s := by
  have h : completed_chars ++ s = 'C' :: (['o', 'm', 'p', 'l', 'e', 't', 'e', 'd', ':', ' '] ++ s) := rfl
  rw [h, strip_completed_cons]
  have hp : completed_chars.isPrefixOf
      ('C' :: (['o', 'm', 'p', 'l', 'e', 't', 'e', 'd', ':', ' '] ++ s)) = true := by
    simp [completed_chars]
  rw [hp]
  simp only [if_true]
  have hd : ('C' :: (['o', 'm', 'p', 'l', 'e', 't', 'e', 'd', ':', ' '] ++ s)).drop
      completed_chars.length = s := by
    simp [completed_chars]
  rw [hd]

/-- strip_completed does not depend on the fuel once the fuel covers the
length of the list. -/
theorem strip_completed_fuel_irrel :
    ∀ (f g : Nat) (l : List Char), l.length ≤ f → l.length ≤ g →
      strip_completed f l = strip_completed g l := by
  intro f
  induction f with
  | zero =>
    intro g l hf _
    have : l = [] := List.eq_nil_of_length_eq_zero (Nat.le_zero.mp hf)
    subst this
    rw [strip_completed_nil, strip_completed_nil]
  | succ f ih =>
    intro g l hf hg
    cases l with
    | nil => rw [strip_completed_nil, strip_completed_nil]
    | cons c rest =>
      cases g with
      | zero => simp at hg
      | succ g =>
        rw [strip_completed_cons, strip_completed_cons]
        by_cases hp : completed_chars.isPrefixOf (c :: rest) = true
        · rw [hp]
          simp only [if_true]
          have hcl : completed_chars.length = 11 := by decide
          apply ih
          · rw [hcl, List.length_drop]
            simp only [List.length_cons] at hf ⊢
            omega
          · rw [hcl, List.length_drop]
            simp only [List.length_cons] at hg ⊢
            omega
        · rw [Bool.not_eq_true] at hp
          rw [hp]
          simp only [Bool.false_eq_true, if_false]
          have : rest.length ≤ f := by
            simp only [List.length_cons] at hf
            omega
          have h2 : rest.length ≤ g := by
            simp only [List.length_cons] at hg
            omega
          rw [ih g rest this h2]

/-- Stripping the completed marker from a summary that freshly received it
gives back exactly what stripping gives on the bare summary; combined with
a marker-free summary this is the full round trip. -/
theorem py_replace_completed_marker (s : String) :
    py_replace_completed (completed_marker ++ s) = py_replace_completed s := by
  unfold py_replace_completed
  have hdata : (completed_marker ++ s).data = completed_chars ++ s.data := by
    rw [String.data_append]
    rfl
  rw [hdata]
  have hlen : (completed_chars ++ s.data).length = s.data.length + 11 := by
    rw [List.length_append]
    simp [completed_chars]
    omega
  rw [hlen]
  have h1 : s.data.length + 11 = (s.data.length + 10) + 1 := by omega
  rw [h1, strip_completed_marker_cons]
  rw [strip_completed_fuel_irrel (s.data.length + 10) s.data.length s.data (by omega) (by omega)]

/-- toggle_subs finds nothing when no sub-event carries the requested
id. -/
theorem toggle_subs_none (subs : List SubEvent) (sub_event_id : Nat)
    (remote : Option RemoteEvent) (h : ∀ s ∈ subs, s.id ≠ sub_event_id) :
    toggle_subs subs sub_event_id remote = none := by
  induction subs with
  | nil => rfl
  | cons s rest ih =>
    have hs : s.id ≠ sub_event_id := h s (by simp)
    simp only [toggle_subs, if_neg hs]
    rw [ih fun x hx => h x (by simp [hx])]
    rfl

/-- toggle_sessions is the identity when no session and sub-event pair
matches the requested ids. -/
theorem toggle_sessions_noop (events : List Session) (event_id sub_event_id : Nat)
    (remote : Nat → Option RemoteEvent)
    (h : ∀ e ∈ events, e.id = event_id → ∀ s ∈ e.sub_events, s.id ≠ sub_event_id) :
    toggle_sessions events event_id sub_event_id remote = events := by
  induction events with
  | nil => rfl
  | cons e rest ih =>
    have hrest : toggle_sessions rest event_id sub_event_id remote = rest :=
      ih fun x hx => h x (by simp [hx])
    by_cases he : e.id = event_id
    · have hsubs := toggle_subs_none e.sub_events sub_event_id (remote sub_event_id)
        (h e (by simp) he)
      simp only [toggle_sessions, if_pos he, hsubs, hrest]
    · simp only [toggle_sessions, if_neg he, hrest]

/-- The sub-event list produced by create_loop extends the accumulator. -/
theorem create_loop_extends (insert : Nat → Option Nat) (subject : String) :
    ∀ (l : List Nat) (acc : List SubEvent) (last : Option Nat),
      ∃ tail, (create_loop insert subject l acc last).sub_events = acc ++ tail := by
  intro l
  induction l with
  | nil => intro acc last; exact ⟨[], by simp [create_loop]⟩
  | cons i rest ih =>
    intro acc last
    cases hins : insert i with
    | some new_id =>
      obtain ⟨tail, htail⟩ := ih
        (acc ++ [{ id := new_id, name := name_for subject i, completed := false,
                   originalColorId := none }]) (some new_id)
      refine ⟨[{ id := new_id, name := name_for subject i, completed := false,
                 originalColorId := none }] ++ tail, ?_⟩
      simp only [create_loop, hins]
      rw [htail, List.append_assoc]
    | none => exact ⟨[], by simp [create_loop, hins]⟩

/-- When the creation loop succeeds it consumed the whole offset list,
appending one sub-event per entry. -/
theorem create_loop_success_length (insert : Nat → Option Nat) (subject : String) :
    ∀ (l : List Nat) (acc : List SubEvent) (last : Option Nat),
      (create_loop insert subject l acc last).success = true →
      (create_loop insert subject l acc last).sub_events.length = acc.length + l.length := by
  intro l
  induction l with
  | nil => intro acc last _; simp [create_loop]
  | cons i rest ih =>
    intro acc last h
    cases hins : insert i with
    | some new_id =>
      simp only [create_loop, hins] at h ⊢
      rw [ih _ _ h]
      simp only [List.length_append, List.length_cons, List.length_nil]
      omega
    | none => simp [create_loop, hins] at h

/-- Invariant of the creation loop: when the incoming last-created id is
the id of the last accumulated sub-event, the outgoing last-created id is
the id of the last produced sub-event. -/
theorem create_loop_last (insert : Nat → Option Nat) (subject : String) :
    ∀ (l : List Nat) (acc : List SubEvent) (last : Option Nat),
      acc.getLast?.map SubEvent.id = last →
      (create_loop insert subject l acc last).sub_events.getLast?.map SubEvent.id =
        (create_loop insert subject l acc last).last_created := by
  intro l
  induction l with
  | nil => intro acc last h; exact h
  | cons i rest ih =>
    intro acc last h
    cases hins : insert i with
    | some new_id =>
      simp only [create_loop, hins]
      apply ih
      rw [List.getLast?_concat]
      rfl
    | none =>
      simp only [create_loop, hins]
      exact h

/-- On the fixed non-empty offset table, a successful creation run has a
non-empty sub-event list. -/
theorem run_create_success_ne_nil (insert : Nat → Option Nat) (subject : String)
    (h : (run_create insert subject).success = true) :
    (run_create insert subject).sub_events ≠ [] := by
  have hlen := create_loop_success_length insert subject intervals [] none h
  intro hnil
  have hnil2 : (create_loop insert subject intervals [] none).sub_events = [] := hnil
  rw [hnil2] at hlen
  simp [intervals] at hlen

/-- For a successful run over the fixed table, the recorded last-created
id is the id of the last sub-event. -/
theorem run_create_last (insert : Nat → Option Nat) (subject : String) :
    (run_create insert subject).sub_events.getLast?.map SubEvent.id =
      (run_create insert subject).last_created := by
  exact create_loop_last insert subject intervals [] none (by simp)

/-- Membership in a generated series comes from some table entry. -/
theorem mem_generate_series (anchor : Int) (duration : Nat) (occ : Occurrence)
    (h : occ ∈ generate_series anchor duration) :
    ∃ i, i ∈ intervals ∧ occ = occurrence_for anchor duration i := by
  unfold generate_series at h
  obtain ⟨i, hi, hocc⟩ := List.mem_map.mp h
  exact ⟨i, hi, hocc.symm⟩

/-- The offset recorded in an occurrence is the table entry it came
from. -/
theorem occurrence_for_offset (anchor : Int) (duration : Nat) (i : Nat) :
    (occurrence_for anchor duration i).offsetDays = i := by
  unfold occurrence_for
  by_cases h : i = 365 ∧ anchor + (i : Int) * minutes_per_day > cutoff_check
  · rw [if_pos h]
  · rw [if_neg h]

/-- Stop is always start plus duration. -/
theorem occurrence_for_stop (anchor : Int) (duration : Nat) (i : Nat) :
    (occurrence_for anchor duration i).stop =
      (occurrence_for anchor duration i).start + (duration : Int) := by
  unfold occurrence_for
  by_cases h : i = 365 ∧ anchor + (i : Int) * minutes_per_day > cutoff_check
  · rw [if_pos h]
  · rw [if_neg h]

/-- Start formula of an occurrence: clamped exactly when the entry is the
365-day one and its computed start exceeds the cutoff. -/
theorem occurrence_for_start (anchor : Int) (duration : Nat) (i : Nat) :
    (occurrence_for anchor duration i).start =
      if i = 365 ∧ anchor + (i : Int) * minutes_per_day > cutoff_check then cutoff_clamp
      else anchor + (i : Int) * minutes_per_day := by
  unfold occurrence_for
  by_cases h : i = 365 ∧ anchor + (i : Int) * minutes_per_day > cutoff_check
  · rw [if_pos h, if_pos h]
  · rw [if_neg h, if_neg h]

/-! Claim theorems. -/

/-- C1, counterexample.  The claim says reconciliation checks existence
per sub-event and keeps a sub-event iff its own check succeeds.  On a
ledger whose only session (id 1) holds sub-events 1, 2, 3 with sub-event 2
missing remotely, verify_events keeps the session completely untouched --
sub-event 2 survives although its check fails -- so the per-sub-event
description disagrees with the code. -/
theorem c1_per_subevent_filtering_fails :
    (verify_events check_c1 hist_c1).created_events = hist_c1.created_events ∧
      event_exists check_c1 2 = false ∧
      verify_events check_c1 hist_c1 ≠ reconcile_spec check_c1 hist_c1 := by
  refine ⟨by decide, by decide, by decide⟩

/-- C1, amended: verify_events reconciles at session granularity.  A
session is kept, with its sub-event list untouched, in each of the three
ledger lists exactly when the existence check of the session own id
succeeds; sub-events are never checked individually and a session is never
dropped for having an empty sub-event list. -/
theorem c1_session_level_reconciliation (check : Nat → RemoteGet) (history : History)
    (e : Session) :
    (e ∈ (verify_events check history).created_events ↔
        e ∈ history.created_events ∧ event_exists check e.id = true) ∧
      (e ∈ (verify_events check history).completed_events ↔
        e ∈ history.completed_events ∧ event_exists check e.id = true) ∧
      (e ∈ (verify_events check history).missed_events ↔
        e ∈ history.missed_events ∧ event_exists check e.id = true) := by
  refine ⟨?_, ?_, ?_⟩ <;>
    simp [verify_events, mem_keep_existing]

/-- C2.  The specification requires a transport-level failure of the
existence check to be treated as still present; event_exists catches every
HttpError and returns False, so verify_events deletes the ledger entry:
with the get for id 5 failing at transport level, the created session with
id 5 is dropped. -/
theorem c2_transport_error_deletes_entry :
    check_c2 5 = RemoteGet.transportError ∧
      event_exists check_c2 5 = false ∧
      (verify_events check_c2 hist_c2).created_events = [] := by
  refine ⟨by decide, by decide, by decide⟩

/-- C3, counterexample.  The offset table of app.py line 275 is not the
sequence 1, 7, 16, 35, 90, 180, 365 claimed: its fourth entry is 30. -/
theorem c3_table_not_spec_values :
    intervals ≠ [1, 7, 16, 35, 90, 180, 365] ∧ intervals.get? 3 = some 30 := by
  refine ⟨by decide, by decide⟩

/-- C3, amended: the offset table is 1, 7, 16, 30, 90, 180, 365 in that
order, and these offsets are strictly increasing and hence unique. -/
theorem c3_table_values_strictly_increasing :
    intervals = [1, 7, 16, 30, 90, 180, 365] ∧ List.Pairwise (· < ·) intervals := by
  refine ⟨by decide, by decide⟩

/-- C4, counterexample.  With the insert for offset 1 succeeding (id 11)
and the insert for offset 7 failing, one sub-event was successfully
created, yet the resulting ledger is completely unchanged -- no session
with a partial sub-event list is recorded, contradicting the claim. -/
theorem c4_partial_failure_records_nothing :
    (run_create insert_c4 subj).sub_events =
        [{ id := 11, name := "Physics: Review notes", completed := false,
           originalColorId := none }] ∧
      (run_create insert_c4 subj).success = false ∧
      create_events insert_c4 subj "desc" "date" hist_empty = hist_empty := by
  refine ⟨by decide, by decide, by decide⟩

/-- C4, amended: when series creation fails partway through, the ledger is
left untouched -- no session entry is appended at all, so the successfully
created remote events are not recorded locally (and the on-screen report
names only the failing interval, not the successes). -/
theorem c4_failed_series_leaves_ledger_unchanged (insert : Nat → Option Nat)
    (subject description date_s : String) (history : History)
    (h : (run_create insert subject).success = false) :
    create_events insert subject description date_s history = history := by
  unfold create_events
  rw [h]
  rfl

/-- C4 witness: the amended statement at the concrete failing insert map
of the counterexample scenario. -/
theorem c4_failed_series_leaves_ledger_unchanged_witness :
    (run_create insert_c4 subj).success = false ∧
      create_events insert_c4 subj "d2" "t2" hist_c5 = hist_c5 :=
  ⟨by decide, c4_failed_series_leaves_ledger_unchanged insert_c4 subj "d2" "t2" hist_c5 (by decide)⟩

/-- C5, counterexample.  toggle_completion with a sub-event id that is
nowhere in the ledger (the only session, id 1, holds only sub-event 10)
silently returns the ledger unchanged; the Python function has no raise
statement on this path, so no NotFoundError occurs -- the call silently
succeeds, contradicting the claim. -/
theorem c5_unknown_id_silent_noop_example :
    toggle_completion hist_c5 1 99 remote_none = hist_c5 := by
  decide

/-- C5, amended: toggling with a session id or sub-event id that matches
no entry of the ledger is a silent no-op -- the ledger is returned
unchanged and nothing fails; the recoverable no-op the propagation policy
asks callers to arrange is already the built-in behaviour. -/
theorem c5_unknown_id_is_noop (history : History) (event_id sub_event_id : Nat)
    (remote : Nat → Option RemoteEvent)
    (h : ∀ e ∈ history.created_events, e.id = event_id →
      ∀ s ∈ e.sub_events, s.id ≠ sub_event_id) :
    toggle_completion history event_id sub_event_id remote = history := by
  unfold toggle_completion
  rw [toggle_sessions_noop history.created_events event_id sub_event_id remote h]

/-- C5 witness: the amended statement on a concrete ledger and an unknown
session id. -/
theorem c5_unknown_id_is_noop_witness :
    (∀ e ∈ hist_c5.created_events, e.id = 2 → ∀ s ∈ e.sub_events, s.id ≠ 10) ∧
      toggle_completion hist_c5 2 10 remote_none = hist_c5 :=
  ⟨by decide, c5_unknown_id_is_noop hist_c5 2 10 remote_none (by decide)⟩

/-- C6.  Toggle round trip on a fresh sub-event (not completed, colour
never captured) whose remote event is reachable: the first toggle captures
the remote colour (default 1 when absent) into originalColorId; the second
toggle flips completed back to its original value, leaves the captured
colour untouched, restores it onto the remote event, and strips the
completed marker it had prefixed to the summary (exactly restoring the
summary whenever the original summary is free of the marker); moreover a
toggle never overwrites an already captured originalColorId. -/
theorem c6_toggle_round_trip (sub : SubEvent) (cal : RemoteEvent)
    (hc : sub.completed = false) (ho : sub.originalColorId = none)
    (hs : py_replace_completed cal.summary = cal.summary) :
    ((toggle_sub (toggle_sub sub (some cal)).1 (toggle_sub sub (some cal)).2).1.completed =
        sub.completed) ∧
      ((toggle_sub sub (some cal)).1.originalColorId = some (cal.colorId.getD default_color)) ∧
      ((toggle_sub (toggle_sub sub (some cal)).1
          (toggle_sub sub (some cal)).2).1.originalColorId =
        (toggle_sub sub (some cal)).1.originalColorId) ∧
      ((toggle_sub (toggle_sub sub (some cal)).1 (toggle_sub sub (some cal)).2).2 =
        some { summary := cal.summary, colorId := some (cal.colorId.getD default_color) }) ∧
      (∀ (s' : SubEvent) (r' : Option RemoteEvent), s'.originalColorId.isSome = true →
        (toggle_sub s' r').1.originalColorId = s'.originalColorId) := by
  have h1 : toggle_sub sub (some cal) =
      ({ sub with completed := true, originalColorId := some (cal.colorId.getD default_color) },
        some { summary := completed_marker ++ cal.summary, colorId := some graphite }) := by
    simp [toggle_sub, hc, ho]
  have h2 : toggle_sub
      { sub with completed := true, originalColorId := some (cal.colorId.getD default_color) }
      (some { summary := completed_marker ++ cal.summary, colorId := some graphite }) =
      ({ sub with completed := false, originalColorId := some (cal.colorId.getD default_color) },
        some { summary := cal.summary, colorId := some (cal.colorId.getD default_color) }) := by
    simp [toggle_sub, py_replace_completed_marker, hs]
  refine ⟨?_, ?_, ?_, ?_, ?_⟩
  · rw [h1]
    simp only
    rw [h2, hc]
  · rw [h1]
  · rw [h1]
    simp only
    rw [h2]
  · rw [h1]
    simp only
    rw [h2]
  · intro s' r' hsome
    unfold toggle_sub
    cases r' with
    | none => rfl
    | some cal' =>
      simp only
      rw [Option.isSome_iff_exists] at hsome
      obtain ⟨c0, hc0⟩ := hsome
      simp [hc0]
      by_cases hcomp : s'.completed <;> simp [hcomp]

/-- C6 witness: the round trip at a concrete fresh sub-event and a
concrete remote event whose summary is marker-free. -/
theorem c6_toggle_round_trip_witness :
    ((plain_sub 10).completed = false ∧ (plain_sub 10).originalColorId = none ∧
        py_replace_completed cal_c6.summary = cal_c6.summary) ∧
      ((toggle_sub (toggle_sub (plain_sub 10) (some cal_c6)).1
          (toggle_sub (plain_sub 10) (some cal_c6)).2).1.completed =
        (plain_sub 10).completed) :=
  ⟨⟨by decide, by decide, by decide⟩,
    (c6_toggle_round_trip (plain_sub 10) cal_c6 (by decide) (by decide) (by decide)).1⟩

/-- C7, counterexample.  With every insert succeeding and the insert for
offset i returning id 100 + i, the session recorded in the ledger carries
id 465 -- the id of the last created sub-event (offset 365) -- while the
first created sub-event has id 101, so the claim that the session id is
the id of the first created sub-event fails. -/
theorem c7_session_id_is_not_first :
    ((create_events insert_c7 subj "desc" "date" hist_empty).created_events.map Session.id =
        [465]) ∧
      ((run_create insert_c7 subj).sub_events.head?.map SubEvent.id = some 101) ∧
      (465 : Nat) ≠ 101 := by
  refine ⟨by decide, by decide, by decide⟩

/-- C7, amended: after a fully successful series creation, exactly one
session is appended to the ledger, its sub-event list is the list of
created sub-events, and its id equals the id of the last successfully
created sub-event (the loop variable still holds the last insert result
when the session record is built). -/
theorem c7_session_id_is_last_created (insert : Nat → Option Nat)
    (subject description date_s : String) (history : History)
    (h : (run_create insert subject).success = true) :
    ∃ s : Session,
      (create_events insert subject description date_s history).created_events =
          history.created_events ++ [s] ∧
        s.sub_events = (run_create insert subject).sub_events ∧
        (run_create insert subject).sub_events.getLast?.map SubEvent.id = some s.id := by
  have hne := run_create_success_ne_nil insert subject h
  have hlast := run_create_last insert subject
  have hget : (run_create insert subject).sub_events.getLast? ≠ none := by
    intro hcon
    exact hne (List.getLast?_eq_none_iff.mp hcon)
  obtain ⟨lastSub, hlastSub⟩ := Option.ne_none_iff_exists.mp (by exact hget)
  have hid : (run_create insert subject).last_created = some lastSub.id := by
    rw [← hlast, ← hlastSub]
    rfl
  refine ⟨{ id := lastSub.id, title := description, date := date_s,
            sub_events := (run_create insert subject).sub_events }, ?_, rfl, ?_⟩
  · unfold create_events
    rw [h, hid]
    simp
  · rw [← hlastSub]
    rfl

/-- C7 witness: the amended statement at the concrete all-succeeding
insert map. -/
theorem c7_session_id_is_last_created_witness :
    (run_create insert_c7 subj).success = true ∧
      ∃ s : Session,
        (create_events insert_c7 subj "d" "t" hist_empty).created_events =
            hist_empty.created_events ++ [s] ∧
          s.sub_events = (run_create insert_c7 subj).sub_events ∧
          (run_create insert_c7 subj).sub_events.getLast?.map SubEvent.id = some s.id :=
  ⟨by decide, c7_session_id_is_last_created insert_c7 subj "d" "t" hist_empty (by decide)⟩

/-- C8, counterexample.  With the anchor at the cutoff instant itself, the
180-day occurrence starts beyond the cutoff yet is not clamped: its start
stays at anchor plus 180 days, so the clamping policy is not applied to
every occurrence exceeding the cap -- only the 365-day entry is ever
clamped. -/
theorem c8_clamp_only_at_365 :
    (180 : Nat) ∈ intervals ∧
      (occurrence_for cutoff_check 60 180).start = cutoff_check + 180 * minutes_per_day ∧
      (occurrence_for cutoff_check 60 180).start > cutoff_clamp ∧
      (occurrence_for cutoff_check 60 180).start ≠ cutoff_clamp ∧
      (occurrence_for cutoff_check 60 365).start = cutoff_clamp := by
  refine ⟨by decide, by decide, by decide, by decide, by decide⟩

/-- C8, amended: the clamp is applied to the 365-day table entry only --
that occurrence starts at the 2025-08-31 23:59 clamp instant exactly when
its computed start exceeds 2025-08-31 00:00, with its stop recomputed as
the clamped start plus the duration, while every other occurrence keeps
start anchor plus offset days regardless of the cap. -/
theorem c8_clamp_policy (anchor : Int) (duration : Nat) (occ : Occurrence)
    (hm : occ ∈ generate_series anchor duration) :
    occ.stop = occ.start + (duration : Int) ∧
      (occ.offsetDays ≠ 365 →
        occ.start = anchor + (occ.offsetDays : Int) * minutes_per_day) ∧
      (occ.offsetDays = 365 → anchor + 365 * minutes_per_day > cutoff_check →
        occ.start = cutoff_clamp) ∧
      (occ.offsetDays = 365 → anchor + 365 * minutes_per_day ≤ cutoff_check →
        occ.start = anchor + 365 * minutes_per_day) := by
  obtain ⟨i, hi, hocc⟩ := mem_generate_series anchor duration occ hm
  subst hocc
  rw [occurrence_for_offset]
  refine ⟨occurrence_for_stop anchor duration i, ?_, ?_, ?_⟩
  · intro hne
    rw [occurrence_for_start, if_neg fun hcon => hne hcon.1]
  · intro h365 hgt
    subst h365
    rw [occurrence_for_start, if_pos ⟨rfl, by exact_mod_cast hgt⟩]
  · intro h365 hle
    subst h365
    have hnot : ¬((365 : Nat) = 365 ∧
        anchor + ((365 : Nat) : Int) * minutes_per_day > cutoff_check) := by
      intro hcon
      have h2 : anchor + (365 : Int) * minutes_per_day > cutoff_check := by
        exact_mod_cast hcon.2
      exact absurd h2 (not_lt.mpr hle)
    rw [occurrence_for_start, if_neg hnot]
    norm_cast

/-- C8 witness: the amended statement at a concrete anchor for the 16-day
occurrence of the generated series. -/
theorem c8_clamp_policy_witness :
    occurrence_for 0 60 16 ∈ generate_series 0 60 ∧
      ((occurrence_for 0 60 16).offsetDays ≠ 365 →
        (occurrence_for 0 60 16).start =
          0 + ((occurrence_for 0 60 16).offsetDays : Int) * minutes_per_day) :=
  ⟨by decide, (c8_clamp_policy 0 60 (occurrence_for 0 60 16) (by decide)).2.1⟩

/-- C9, counterexample.  Series generation is not everywhere the pure
offset formula of the claim: with the anchor at the cutoff instant, the
365-day occurrence of the generated series starts at the clamp instant
rather than at anchor plus 365 days. -/
theorem c9_formula_fails_at_clamped_entry :
    (generate_series cutoff_check 60).getLast? =
        some { offsetDays := 365, start := cutoff_clamp, stop := cutoff_clamp + 60 } ∧
      cutoff_clamp ≠ cutoff_check + 365 * minutes_per_day := by
  refine ⟨by decide, by decide⟩

/-- C9, amended: the date series is a pure function of anchor and
duration -- identical inputs yield the identical occurrence list, the
series carries exactly the table offsets in table order, every stop is its
start plus the duration, and every start is anchor plus offset days except
the 365-day entry when that sum exceeds the 2025-08-31 cutoff, where it is
clamped. -/
theorem c9_generate_series_pure (a₁ a₂ : Int) (d₁ d₂ : Nat) (ha : a₁ = a₂) (hd : d₁ = d₂) :
    generate_series a₁ d₁ = generate_series a₂ d₂ ∧
      (generate_series a₁ d₁).map Occurrence.offsetDays = intervals ∧
      ∀ occ ∈ generate_series a₁ d₁,
        occ.stop = occ.start + (d₁ : Int) ∧
          (¬(occ.offsetDays = 365 ∧ a₁ + 365 * minutes_per_day > cutoff_check) →
            occ.start = a₁ + (occ.offsetDays : Int) * minutes_per_day) := by
  subst ha
  subst hd
  refine ⟨rfl, ?_, ?_⟩
  · unfold generate_series
    rw [List.map_map]
    have : (Occurrence.offsetDays ∘ occurrence_for a₁ d₁) = id := by
      funext i
      simp [occurrence_for_offset a₁ d₁ i]
    rw [this, List.map_id]
  · intro occ hm
    obtain ⟨i, hi, hocc⟩ := mem_generate_series a₁ d₁ occ hm
    subst hocc
    rw [occurrence_for_offset]
    refine ⟨occurrence_for_stop a₁ d₁ i, ?_⟩
    intro hnot
    have hnot2 : ¬(i = 365 ∧ a₁ + (i : Int) * minutes_per_day > cutoff_check) := by
      intro hcon
      apply hnot
      obtain ⟨hc1, hc2⟩ := hcon
      subst hc1
      exact ⟨rfl, by exact_mod_cast hc2⟩
    rw [occurrence_for_start, if_neg hnot2]

/-- C9 witness: the amended statement at concrete equal inputs. -/
theorem c9_generate_series_pure_witness :
    generate_series 0 60 = generate_series 0 60 ∧
      (generate_series 0 60).map Occurrence.offsetDays = intervals ∧
      ∀ occ ∈ generate_series 0 60,
        occ.stop = occ.start + (60 : Int) ∧
          (¬(occ.offsetDays = 365 ∧ (0 : Int) + 365 * minutes_per_day > cutoff_check) →
            occ.start = 0 + (occ.offsetDays : Int) * minutes_per_day) :=
  c9_generate_series_pure 0 0 60 60 rfl rfl

/-- C10.  reset_progress clears the completed flag of every sub-event of
every created session and changes nothing else: the completed and missed
lists are untouched, and the created list keeps its sessions in order with
id, title, date, sub-event order, sub-event ids and names and captured
originalColorId values all preserved. -/
theorem c10_reset_progress_frame (history : History) :
    (reset_progress history).completed_events = history.completed_events ∧
      (reset_progress history).missed_events = history.missed_events ∧
      List.Forall₂
        (fun e e' => e'.id = e.id ∧ e'.title = e.title ∧ e'.date = e.date ∧
          List.Forall₂
            (fun s s' => s'.id = s.id ∧ s'.name = s.name ∧
              s'.originalColorId = s.originalColorId ∧ s'.completed = false)
            e.sub_events e'.sub_events)
        history.created_events (reset_progress history).created_events := by
  refine ⟨rfl, rfl, ?_⟩
  unfold reset_progress
  simp only
  rw [List.forall₂_map_right_iff]
  apply List.forall₂_same.mpr
  intro e _
  refine ⟨rfl, rfl, rfl, ?_⟩
  rw [List.forall₂_map_right_iff]
  apply List.forall₂_same.mpr
  intro s _
  exact ⟨rfl, rfl, rfl, rfl⟩

end SpacedRepetition
